import Mathlib

set_option maxRecDepth 100000

/-!
Shallow embedding of the analytics engine in `src/processor.py` of the
social-media-analytics-pipeline repository, together with proofs of the
specification claims about it.

Modelling conventions:
* Timestamps (`post_date`, `collected_at`) are natural numbers (seconds);
  the calendar date extracted by `post_date.dt.date` is modelled as the
  day number `post_date / 86400`.
* Platforms and the other textual fields are `String`s (the pydantic model
  serialises the `Platform` enum to its string value).
* `likes`, `comments`, `shares` are integers: the pydantic `Post` model
  validates them as non-negative integers, so the `pd.to_numeric(...).fillna(0)`
  coercion in `process_posts` is the identity on such inputs.
* Exact rational arithmetic (`ℚ`) stands in for float64.  Python's
  `round(x, 2)` (round-half-to-even on the scaled value) is modelled exactly
  over `ℚ`; binary-representation error of floats is not modelled.
* A pandas `DataFrame` of posts is a `List Row`; `dict` results preserve
  insertion order and are modelled as association lists.
-/

/-- Mirror of the pydantic `Post` model (`src/models.py`): the fields the
engine reads.  Optional `author_name` is modelled as a plain string. -/
structure Post where
  post_id : String
  platform : String
  content : String
  author_id : String
  author_name : String
  likes : Int
  comments : Int
  shares : Int
  post_date : Nat
  collected_at : Nat
deriving DecidableEq

/-- One row of the tabular projection produced by `DataProcessor.process_posts`:
a post plus the derived `date` and `engagement_score` columns. -/
structure Row where
  post_id : String
  platform : String
  content : String
  author_id : String
  author_name : String
  likes : Int
  comments : Int
  shares : Int
  post_date : Nat
  collected_at : Nat
  date : Nat
  engagement_score : Int
deriving DecidableEq, Inhabited

/-- Calendar-date extraction `post_date.dt.date`, modelled as the day number. -/
def dayOfTimestamp (t : Nat) : Nat := t / 86400

/-- `DataProcessor.process_posts` (processor.py lines 19-49): one row per post,
with the derived `date` column and `engagement_score = likes + comments + shares`. -/
def process_posts (posts : List Post) : List Row :=
  if posts = [] then []
  else posts.map (fun p =>
    { post_id := p.post_id, platform := p.platform, content := p.content,
      author_id := p.author_id, author_name := p.author_name,
      likes := p.likes, comments := p.comments, shares := p.shares,
      post_date := p.post_date, collected_at := p.collected_at,
      date := dayOfTimestamp p.post_date,
      engagement_score := p.likes + p.comments + p.shares })

/-- Round-half-to-even to an integer, the tie rule of Python's `round`. -/
def roundHalfEven (q : ℚ) : ℤ :=
  let f := ⌊q⌋
  let r := q - f
  if r < 1/2 then f
  else if 1/2 < r then f + 1
  else if f % 2 = 0 then f else f + 1

/-- Python's `round(x, 2)`, modelled exactly over `ℚ`. -/
def round2 (q : ℚ) : ℚ := (roundHalfEven (q * 100) : ℚ) / 100

/-- Mirror of the `DailyMetrics` model: the aggregate for one `(date, platform)`
group. -/
structure DailyMetrics where
  date : Nat
  platform : String
  total_posts : Nat
  total_likes : Int
  total_comments : Int
  total_shares : Int
  total_engagement : Int
  avg_engagement_per_post : ℚ
deriving DecidableEq

/-- The `(date, platform)` grouping key of a row. -/
def rowKey (r : Row) : Nat × String := (r.date, r.platform)

/-- Ascending order on grouping keys: date first, then platform, matching the
key order in which `df.groupby(['date', 'platform'])` emits its groups. -/
def keyLE (a b : Nat × String) : Prop :=
  a.1 < b.1 ∨ (a.1 = b.1 ∧ a.2 ≤ b.2)

instance : DecidableRel keyLE := fun a b => by
  unfold keyLE; exact inferInstance

/-- The distinct grouping keys of a table, in ascending key order
(`groupby` with the default `sort=True`). -/
def groupKeys (df : List Row) : List (Nat × String) :=
  List.insertionSort keyLE (df.map rowKey).dedup

/-- The rows of one `(date, platform)` group. -/
def groupRows (df : List Row) (k : Nat × String) : List Row :=
  df.filter (fun r => decide (rowKey r = k))

/-- The `DailyMetrics` record emitted for one group by
`DataProcessor.compute_daily_metrics` (processor.py lines 62-81). -/
def metricFor (df : List Row) (k : Nat × String) : DailyMetrics :=
  let g := groupRows df k
  let total_posts := g.length
  let total_engagement := (g.map (·.engagement_score)).sum
  { date := k.1, platform := k.2,
    total_posts := total_posts,
    total_likes := (g.map (·.likes)).sum,
    total_comments := (g.map (·.comments)).sum,
    total_shares := (g.map (·.shares)).sum,
    total_engagement := total_engagement,
    avg_engagement_per_post :=
      round2 (if 0 < total_posts then (total_engagement : ℚ) / total_posts else 0) }

/-- `DataProcessor.compute_daily_metrics` (processor.py lines 51-88). -/
def compute_daily_metrics (df : List Row) : List DailyMetrics :=
  if df = [] then [] else (groupKeys df).map (metricFor df)

/-- Mirror of the `TopPost` model. -/
structure TopPost where
  post_id : String
  platform : String
  content : String
  engagement_score : Int
  likes : Int
  comments : Int
  shares : Int
  post_date : Nat
  author_name : String
deriving DecidableEq

/-- Content truncation in the ranker: `row['content'][:200] + "..."` when the
content exceeds 200 characters, unchanged otherwise. -/
def truncateContent (s : String) : String :=
  if s.length > 200 then s.take 200 ++ "..." else s

/-- The `TopPost` projection of one table row (processor.py lines 101-111). -/
def topPostOfRow (r : Row) : TopPost :=
  { post_id := r.post_id, platform := r.platform,
    content := truncateContent r.content,
    engagement_score := r.engagement_score, likes := r.likes,
    comments := r.comments, shares := r.shares,
    post_date := r.post_date, author_name := r.author_name }

/-- The total order in which `df.nlargest(n, 'engagement_score')` emits
index-paired rows: engagement score descending, ties by original row
position ascending (pandas `nlargest` with the default `keep='first'`
stably sorts positions by descending value). -/
def rankLE (a b : Nat × Row) : Prop :=
  b.2.engagement_score < a.2.engagement_score ∨
    (a.2.engagement_score = b.2.engagement_score ∧ a.1 ≤ b.1)

instance : DecidableRel rankLE := fun a b => by
  unfold rankLE; exact inferInstance

instance : IsTotal (Nat × Row) rankLE := by
  constructor
  intro a b
  rcases lt_trichotomy a.2.engagement_score b.2.engagement_score with h | h | h
  · exact Or.inr (Or.inl h)
  · rcases Nat.le_total a.1 b.1 with h1 | h1
    · exact Or.inl (Or.inr ⟨h, h1⟩)
    · exact Or.inr (Or.inr ⟨h.symm, h1⟩)
  · exact Or.inl (Or.inl h)

instance : IsTrans (Nat × Row) rankLE := by
  constructor
  intro a b c hab hbc
  rcases hab with h1 | ⟨e1, i1⟩
  · rcases hbc with h2 | ⟨e2, _⟩
    · exact Or.inl (h2.trans h1)
    · exact Or.inl (e2 ▸ h1)
  · rcases hbc with h2 | ⟨e2, i2⟩
    · exact Or.inl (h2.trans_eq e1.symm)
    · exact Or.inr ⟨e1.trans e2, i1.trans i2⟩

/-- The table's rows paired with their original positions, sorted by
`rankLE`: the full descending stable ranking underlying `nlargest`. -/
def rankSort (df : List Row) : List (Nat × Row) :=
  List.insertionSort rankLE df.enum

/-- The first `n` index-paired rows of the ranking: `df.nlargest(n, 'engagement_score')`. -/
def topRows (df : List Row) (n : Nat) : List (Nat × Row) :=
  (rankSort df).take n

/-- `DataProcessor.get_top_posts` (processor.py lines 90-119). -/
def get_top_posts (df : List Row) (top_n : Nat) : List TopPost :=
  if df = [] then []
  else (topRows df top_n).map (fun ir => topPostOfRow ir.2)

/-- First-occurrence de-duplication with an accumulator of already seen
elements: the order semantics of `pandas.Series.unique()`. -/
def uniqueAux {α : Type} [DecidableEq α] (seen : List α) : List α → List α
  | [] => []
  | a :: l => if a ∈ seen then uniqueAux seen l else a :: uniqueAux (a :: seen) l

/-- `df['platform'].unique()`-style de-duplication, keeping first occurrences. -/
def uniqueList {α : Type} [DecidableEq α] (l : List α) : List α :=
  uniqueAux [] l

/-- The distinct platforms of a table, in order of first occurrence. -/
def platformsOf (df : List Row) : List String :=
  uniqueList (df.map (·.platform))

/-- `DataProcessor.get_top_posts_per_platform` (processor.py lines 121-155):
for each platform present in the table, the `nlargest(top_n)` selection of its
rows.  The Python `dict` is modelled as an association list in insertion order. -/
def get_top_posts_per_platform (df : List Row) (top_n : Nat) :
    List (String × List TopPost) :=
  if df = [] then []
  else (platformsOf df).map (fun p =>
    let platform_df := df.filter (fun r => decide (r.platform = p))
    (p, (topRows platform_df top_n).map (fun ir => topPostOfRow ir.2)))

/-- Mirror of the `MovingAverage` model. -/
structure MovingAverage where
  platform : String
  date : Nat
  moving_avg_7d : ℚ
  moving_avg_30d : ℚ
deriving DecidableEq

/-- Arithmetic mean of a list of rationals (`Series.mean()`); `0/0 = 0` for
the empty list. -/
def meanQ (l : List ℚ) : ℚ := l.sum / l.length

/-- The distinct calendar days a platform has rows on, ascending: the index of
the per-platform `daily_engagement` series in `compute_moving_averages`.
The day is re-derived from `post_date` as in the source. -/
def platformDays (df : List Row) (p : String) : List Nat :=
  List.insertionSort (· ≤ ·)
    (uniqueList ((df.filter (fun r => decide (r.platform = p))).map
      (fun r => dayOfTimestamp r.post_date)))

/-- The per-day engagement sums of a platform, in ascending day order. -/
def dailyEngagement (df : List Row) (p : String) : List ℚ :=
  (platformDays df p).map (fun d =>
    ((((df.filter (fun r =>
          decide (r.platform = p ∧ dayOfTimestamp r.post_date = d))).map
        (·.engagement_score)).sum : Int) : ℚ))

/-- The last value of `rolling(window=w, min_periods=1).mean()`: the mean of
the final `w` entries (the caller only uses this when the series has at least
`w` entries). -/
def lastWindowMean (xs : List ℚ) (w : Nat) : ℚ :=
  meanQ (xs.drop (xs.length - w))

/-- The per-platform loop body of `DataProcessor.compute_moving_averages`
(processor.py lines 170-202).  When a platform has fewer distinct days than a
window, the source assigns the scalar `daily_engagement['engagement'].mean()`
and then evaluates `len(...)` on that scalar, which raises `TypeError`;
the surrounding `try` aborts the whole loop.  `none` models that exception. -/
def maLoop (df : List Row) (w7 w30 : Nat) :
    List String → Option (List MovingAverage)
  | [] => some []
  | p :: ps =>
    let days := platformDays df p
    let series := dailyEngagement df p
    if days.length < w7 then none
    else if days.length < w30 then none
    else
      match maLoop df w7 w30 ps with
      | none => none
      | some rest =>
        some ({ platform := p, date := days.getLastD 0,
                moving_avg_7d := round2 (lastWindowMean series w7),
                moving_avg_30d := round2 (lastWindowMean series w30) } :: rest)

/-- `DataProcessor.compute_moving_averages` (processor.py lines 157-209).
The `except` clause turns any in-loop exception into an empty result. -/
def compute_moving_averages (df : List Row) (w7 w30 : Nat) : List MovingAverage :=
  if df = [] then []
  else (maLoop df w7 w30 (platformsOf df)).getD []

/-- The per-platform statistics record of `get_platform_comparison`. -/
structure PlatformStats where
  total_posts : Nat
  total_engagement : Int
  avg_engagement_per_post : ℚ
  avg_likes_per_post : ℚ
  avg_comments_per_post : ℚ
  avg_shares_per_post : ℚ
  top_engagement_post : Int
  dist_low : Nat
  dist_medium : Nat
  dist_high : Nat
deriving DecidableEq

/-- Arithmetic mean of a list of integers as a rational; `0/0 = 0`. -/
def meanInt (l : List Int) : ℚ := ((l.sum : Int) : ℚ) / l.length

/-- The statistics computed for one platform's rows (processor.py lines 262-275). -/
def statsFor (g : List Row) : PlatformStats :=
  { total_posts := g.length,
    total_engagement := (g.map (·.engagement_score)).sum,
    avg_engagement_per_post := round2 (meanInt (g.map (·.engagement_score))),
    avg_likes_per_post := round2 (meanInt (g.map (·.likes))),
    avg_comments_per_post := round2 (meanInt (g.map (·.comments))),
    avg_shares_per_post := round2 (meanInt (g.map (·.shares))),
    top_engagement_post := ((g.map (·.engagement_score)).max?).getD 0,
    dist_low := g.countP (fun r => decide (r.engagement_score < 10)),
    dist_medium := g.countP (fun r =>
      decide (10 ≤ r.engagement_score ∧ r.engagement_score < 100)),
    dist_high := g.countP (fun r => decide (100 ≤ r.engagement_score)) }

/-- `DataProcessor.get_platform_comparison` (processor.py lines 251-283). -/
def get_platform_comparison (df : List Row) : List (String × PlatformStats) :=
  if df = [] then []
  else (platformsOf df).map (fun p =>
    (p, statsFor (df.filter (fun r => decide (r.platform = p)))))

/-- The anomaly record built by `detect_anomalies` (processor.py lines 304-312).
The rounded `z_score` display field involves a square root and is not
representable in `ℚ`; it is omitted here, and no claim concerns it. -/
structure Anomaly where
  post_id : String
  platform : String
  engagement_score : Int
  content_preview : String
  author_name : String
  post_date : Nat
deriving DecidableEq

/-- Content preview in an anomaly record: first 100 characters plus an
ellipsis marker when truncated. -/
def previewContent (s : String) : String :=
  if s.length > 100 then s.take 100 ++ "..." else s

/-- Population mean of the table's engagement scores (`np.mean`). -/
def meanEngagement (df : List Row) : ℚ :=
  meanInt (df.map (·.engagement_score))

/-- Population variance of the table's engagement scores (`np.std` squared,
with the default `ddof=0`). -/
def varEngagement (df : List Row) : ℚ :=
  meanQ (df.map (fun r => ((r.engagement_score : ℚ) - meanEngagement df) ^ 2))

/-- The square-root-free form of the flagging test `z > threshold` with
`z = |s - mean| / std` and `std = sqrt v > 0`: for a non-negative threshold
it is `threshold² · v < (s - mean)²`, and a negative threshold flags
everything since `z ≥ 0`.  `zExceeds_iff_zscore_gt` below proves the
equivalence with the real-valued z-score comparison. -/
def zExceeds (s mean v t : ℚ) : Prop :=
  t < 0 ∨ t ^ 2 * v < (s - mean) ^ 2

instance (s mean v t : ℚ) : Decidable (zExceeds s mean v t) := by
  unfold zExceeds; exact inferInstance

/-- The row positions flagged by `detect_anomalies`:
`np.where(z_scores > threshold)[0]`, which enumerates positions in ascending
order; guarded by `std_engagement > 0` exactly as in the source
(processor.py lines 298-300). -/
def anomalyIndices (df : List Row) (threshold : ℚ) : List Nat :=
  if df = [] then []
  else
    let mean := meanEngagement df
    let v := varEngagement df
    if 0 < v then
      (List.range df.length).filter (fun i =>
        decide (zExceeds ((df.getD i default).engagement_score : ℚ) mean v threshold))
    else []

/-- The anomaly record of one flagged row. -/
def anomalyOfRow (r : Row) : Anomaly :=
  { post_id := r.post_id, platform := r.platform,
    engagement_score := r.engagement_score,
    content_preview := previewContent r.content,
    author_name := r.author_name, post_date := r.post_date }

/-- `DataProcessor.detect_anomalies` (processor.py lines 285-320). -/
def detect_anomalies (df : List Row) (threshold : ℚ) : List Anomaly :=
  (anomalyIndices df threshold).map (fun i => anomalyOfRow (df.getD i default))

/-- Mirror of the `AnalyticsSummary` model; `date` is the generation-date
stamp, handed in by the caller in place of `datetime.now()`. -/
structure AnalyticsSummary where
  date : String
  daily_metrics : List DailyMetrics
  top_posts_overall : List TopPost
  top_posts_per_platform : List (String × List TopPost)
  moving_averages : List MovingAverage
deriving DecidableEq

/-- `DataProcessor.generate_analytics_summary` (processor.py lines 211-249).
`today` stands for `datetime.now().strftime('%Y-%m-%d')`. -/
def generate_analytics_summary (posts : List Post) (today : String) :
    AnalyticsSummary :=
  let df := process_posts posts
  if df = [] then
    { date := today, daily_metrics := [], top_posts_overall := [],
      top_posts_per_platform := [], moving_averages := [] }
  else
    { date := today,
      daily_metrics := compute_daily_metrics df,
      top_posts_overall := get_top_posts df 5,
      top_posts_per_platform := get_top_posts_per_platform df 3,
      moving_averages := compute_moving_averages df 7 30 }

/-! ### Concrete test inputs -/

/-- Builds a table row with the given engagement score (all of it in `likes`),
for concrete test inputs. -/
def mkRow (pid plat : String) (likes : Int) (pdate : Nat) : Row :=
  { post_id := pid, platform := plat, content := "c", author_id := "a",
    author_name := "n", likes := likes, comments := 0, shares := 0,
    post_date := pdate, collected_at := 0, date := pdate / 86400,
    engagement_score := likes }

/-- The spec's anomaly-detector example series: engagement scores
`[1, 1, 1, 1, 100]`, all on one day and platform. -/
def anomalyDemoRows : List Row :=
  [mkRow "p1" "twitter" 1 0, mkRow "p2" "twitter" 1 0, mkRow "p3" "twitter" 1 0,
   mkRow "p4" "twitter" 1 0, mkRow "p5" "twitter" 100 0]

/-- The spec's aggregator scenario: 3 Twitter posts with engagement scores
`[5, 50, 500]` on the same calendar date (day 20). -/
def scenarioPosts : List Post :=
  [{ post_id := "t1", platform := "twitter", content := "c", author_id := "a",
     author_name := "n", likes := 5, comments := 0, shares := 0,
     post_date := 1728000, collected_at := 0 },
   { post_id := "t2", platform := "twitter", content := "c", author_id := "a",
     author_name := "n", likes := 50, comments := 0, shares := 0,
     post_date := 1728100, collected_at := 0 },
   { post_id := "t3", platform := "twitter", content := "c", author_id := "a",
     author_name := "n", likes := 500, comments := 0, shares := 0,
     post_date := 1728200, collected_at := 0 }]

/-- The table built from `scenarioPosts`. -/
def scenarioDf : List Row := process_posts scenarioPosts

/-- The single daily metric the scenario produces. -/
def scenarioMetric : DailyMetrics := metricFor scenarioDf (20, "twitter")

/-- Two rows with the same engagement score: a zero-variance table. -/
def constantRows : List Row :=
  [mkRow "p1" "twitter" 7 0, mkRow "p2" "facebook" 7 86400]

/-- A one-row table: its single platform has one distinct day of history. -/
def singleDayRows : List Row := [mkRow "p1" "twitter" 10 0]

/-- A two-row, two-day table on one platform: non-empty, non-degenerate input
on which the trend estimator still produces an empty result. -/
def twoDayRows : List Row :=
  [mkRow "p1" "twitter" 10 0, mkRow "p2" "twitter" 20 86400]

/-- A three-row, three-day, one-platform table used to witness the swallowed
moving-average failure. -/
def threeDayRows : List Row :=
  [mkRow "y1" "youtube" 1 0, mkRow "y2" "youtube" 2 86400,
   mkRow "y3" "youtube" 3 172800]

/-- A two-platform table for the per-platform ranker witness. -/
def twoPlatformRows : List Row :=
  [mkRow "p1" "twitter" 5 0, mkRow "p2" "twitter" 7 0, mkRow "p3" "facebook" 3 0]

/-- Scores `[0, 0, 0, 0, 100]`: positive variance, one clear outlier. -/
def outlierRows : List Row :=
  [mkRow "q1" "twitter" 0 0, mkRow "q2" "twitter" 0 0, mkRow "q3" "twitter" 0 0,
   mkRow "q4" "twitter" 0 0, mkRow "q5" "twitter" 100 0]

/-- The first platform entry of the per-platform ranking of `twoPlatformRows`. -/
def c7pair : String × List TopPost :=
  (get_top_posts_per_platform twoPlatformRows 3).headD ("", [])

/-- A two-post input for the aggregation-partition witness. -/
def witnessPosts : List Post :=
  [{ post_id := "w1", platform := "twitter", content := "c", author_id := "a",
     author_name := "n", likes := 1, comments := 2, shares := 3,
     post_date := 0, collected_at := 0 },
   { post_id := "w2", platform := "facebook", content := "c", author_id := "a",
     author_name := "n", likes := 4, comments := 0, shares := 0,
     post_date := 86400, collected_at := 0 }]

/-! ### Helper lemmas -/

theorem uniqueAux_mem {α : Type} [DecidableEq α] (seen l : List α) (x : α) :
    x ∈ uniqueAux seen l ↔ x ∈ l ∧ x ∉ seen := by
  induction l generalizing seen with
  | nil => simp [uniqueAux]
  | cons a l ih =>
    by_cases ha : a ∈ seen
    · rw [uniqueAux, if_pos ha, ih]
      constructor
      · rintro ⟨hx, hs⟩
        exact ⟨List.mem_cons_of_mem a hx, hs⟩
      · rintro ⟨hx, hs⟩
        rcases List.mem_cons.mp hx with rfl | hx
        · exact absurd ha hs
        · exact ⟨hx, hs⟩
    · rw [uniqueAux, if_neg ha]
      simp only [List.mem_cons, ih]
      constructor
      · rintro (rfl | ⟨hx, hs⟩)
        · exact ⟨Or.inl rfl, ha⟩
        · refine ⟨Or.inr hx, fun h => hs (Or.inr h)⟩
      · rintro ⟨rfl | hx, hs⟩
        · exact Or.inl rfl
        · by_cases hxa : x = a
          · exact Or.inl hxa
          · refine Or.inr ⟨hx, fun h => ?_⟩
            rcases h with h' | h'
            · exact hxa h'
            · exact hs h'

theorem uniqueAux_nodup {α : Type} [DecidableEq α] (seen l : List α) :
    (uniqueAux seen l).Nodup := by
  induction l generalizing seen with
  | nil => simp [uniqueAux]
  | cons a l ih =>
    by_cases ha : a ∈ seen
    · rw [uniqueAux, if_pos ha]; exact ih seen
    · rw [uniqueAux, if_neg ha]
      refine List.nodup_cons.mpr ⟨?_, ih _⟩
      rw [uniqueAux_mem]
      rintro ⟨-, hs⟩
      exact hs (List.mem_cons_self a seen)

theorem uniqueList_mem {α : Type} [DecidableEq α] (l : List α) (x : α) :
    x ∈ uniqueList l ↔ x ∈ l := by
  rw [uniqueList, uniqueAux_mem]; simp

theorem uniqueList_nodup {α : Type} [DecidableEq α] (l : List α) :
    (uniqueList l).Nodup :=
  uniqueAux_nodup [] l

theorem sum_map_add_nat {κ : Type} (l : List κ) (f g : κ → Nat) :
    (l.map (fun k => f k + g k)).sum = (l.map f).sum + (l.map g).sum := by
  induction l with
  | nil => rfl
  | cons a l ih => simp only [List.map_cons, List.sum_cons, ih]; omega

theorem sum_indicator_one {κ : Type} [DecidableEq κ] (keys : List κ) (a : κ)
    (hnd : keys.Nodup) (ha : a ∈ keys) :
    (keys.map (fun k => if a = k then 1 else 0)).sum = 1 := by
  induction keys with
  | nil => cases ha
  | cons k ks ih =>
    rcases List.mem_cons.mp ha with rfl | ha'
    · have hz : (ks.map (fun k => if a = k then 1 else 0)).sum = 0 := by
        refine List.sum_eq_zero ?_
        intro x hx
        rcases List.mem_map.mp hx with ⟨k', hk', rfl⟩
        have : a ≠ k' := fun h => (List.nodup_cons.mp hnd).1 (h ▸ hk')
        simp [this]
      simp [hz]
    · have hak : a ≠ k := by
        rintro rfl
        exact (List.nodup_cons.mp hnd).1 ha'
      simp only [List.map_cons, List.sum_cons, if_neg hak,
        ih (List.nodup_cons.mp hnd).2 ha', Nat.zero_add]

theorem filter_length_partition (df : List Row) (keys : List (Nat × String))
    (hnd : keys.Nodup) (hcov : ∀ r ∈ df, rowKey r ∈ keys) :
    (keys.map (fun k =>
      (df.filter (fun r => decide (rowKey r = k))).length)).sum = df.length := by
  induction df with
  | nil => simp
  | cons r df ih =>
    have hcov' : ∀ x ∈ df, rowKey x ∈ keys :=
      fun x hx => hcov x (List.mem_cons_of_mem r hx)
    have hstep : ∀ k : Nat × String,
        ((r :: df).filter (fun x => decide (rowKey x = k))).length
          = (if rowKey r = k then 1 else 0)
            + (df.filter (fun x => decide (rowKey x = k))).length := by
      intro k
      by_cases h : rowKey r = k
      · simp [List.filter_cons, h, Nat.add_comm]
      · simp [List.filter_cons, h]
    simp only [hstep]
    rw [sum_map_add_nat, sum_indicator_one keys _ hnd (hcov r (List.mem_cons_self r df)),
      ih hcov']
    simp [List.length_cons, Nat.add_comm]

theorem round2_zero : round2 0 = 0 := by with_unfolding_all decide

theorem zExceeds_iff_zscore_gt (s m v t : ℚ) (hv : 0 < v) :
    zExceeds s m v t ↔
      (t : ℝ) < |(s : ℝ) - (m : ℝ)| / Real.sqrt (v : ℝ) := by
  have hv' : (0 : ℝ) < (v : ℝ) := by exact_mod_cast hv
  have hsq : 0 < Real.sqrt (v : ℝ) := Real.sqrt_pos.mpr hv'
  have hmul : Real.sqrt (v : ℝ) * Real.sqrt (v : ℝ) = (v : ℝ) :=
    Real.mul_self_sqrt hv'.le
  have hz : (0 : ℝ) ≤ |(s : ℝ) - (m : ℝ)| / Real.sqrt (v : ℝ) :=
    div_nonneg (abs_nonneg _) hsq.le
  rcases lt_or_le t 0 with ht | ht
  · have ht' : (t : ℝ) < 0 := by exact_mod_cast ht
    simp [zExceeds, ht, ht'.trans_le hz]
  · have ht' : (0 : ℝ) ≤ (t : ℝ) := by exact_mod_cast ht
    have hnt : ¬ t < 0 := not_lt.mpr ht
    have hcast : (t ^ 2 * v < (s - m) ^ 2) ↔
        ((t : ℝ)) ^ 2 * (v : ℝ) < ((s : ℝ) - (m : ℝ)) ^ 2 := by
      rw [show ((s : ℝ) - (m : ℝ)) = ((s - m : ℚ) : ℝ) by push_cast; ring,
        show ((t : ℝ)) ^ 2 * (v : ℝ) = ((t ^ 2 * v : ℚ) : ℝ) by push_cast; ring]
      exact_mod_cast Iff.rfl
    simp only [zExceeds, hnt, false_or, hcast, lt_div_iff₀ hsq]
    constructor
    · intro h
      nlinarith [abs_nonneg ((s : ℝ) - (m : ℝ)), sq_abs ((s : ℝ) - (m : ℝ)),
        mul_nonneg ht' hsq.le]
    · intro h
      nlinarith [abs_nonneg ((s : ℝ) - (m : ℝ)), sq_abs ((s : ℝ) - (m : ℝ)),
        mul_nonneg ht' hsq.le]

theorem rankSort_length (df : List Row) : (rankSort df).length = df.length := by
  rw [rankSort, (List.perm_insertionSort rankLE df.enum).length_eq, List.enum_length]

theorem topRows_length (df : List Row) (n : Nat) :
    (topRows df n).length = min n df.length := by
  rw [topRows, List.length_take, rankSort_length]

theorem rankSort_sorted (df : List Row) : (rankSort df).Pairwise rankLE :=
  List.sorted_insertionSort rankLE df.enum

theorem rankSort_idx_nodup (df : List Row) :
    ((rankSort df).map Prod.fst).Nodup := by
  have hperm : List.Perm ((rankSort df).map Prod.fst) (df.enum.map Prod.fst) :=
    (List.perm_insertionSort rankLE df.enum).map Prod.fst
  rw [hperm.nodup_iff, List.enum_map_fst]
  exact List.nodup_range df.length

theorem groupKeys_nodup (df : List Row) : (groupKeys df).Nodup := by
  rw [groupKeys]
  exact ((List.perm_insertionSort keyLE _).nodup_iff).mpr (List.nodup_dedup _)

theorem mem_groupKeys (df : List Row) (k : Nat × String) :
    k ∈ groupKeys df ↔ k ∈ df.map rowKey := by
  rw [groupKeys, (List.perm_insertionSort keyLE _).mem_iff, List.mem_dedup]

/-! ### Claims -/

/-- C1: for every table, `get_top_posts` with `top_n = 5` returns a list of
length `min 5 (number of rows)`, sorted descending by engagement score, and
rows with equal engagement score appear in ascending original input position
(stable, input-order tie-breaking; `topRows df 5` is the ranked selection
paired with original row positions). -/
theorem claim_C1_global_ranker (df : List Row) :
    (get_top_posts df 5).length = min 5 df.length ∧
    (get_top_posts df 5).Pairwise
      (fun a b => b.engagement_score ≤ a.engagement_score) ∧
    (topRows df 5).Pairwise
      (fun a b => a.2.engagement_score = b.2.engagement_score → a.1 < b.1) := by
  have htake : (topRows df 5).Pairwise rankLE :=
    (rankSort_sorted df).sublist (List.take_sublist 5 (rankSort df))
  have hne : (topRows df 5).Pairwise (fun a b => a.1 ≠ b.1) := by
    have h2 : (rankSort df).Pairwise (fun a b => a.1 ≠ b.1) :=
      List.pairwise_map.mp (rankSort_idx_nodup df)
    exact h2.sublist (List.take_sublist 5 (rankSort df))
  have hties : (topRows df 5).Pairwise
      (fun a b => a.2.engagement_score = b.2.engagement_score → a.1 < b.1) := by
    refine (htake.and hne).imp ?_
    rintro a b ⟨hab, hneq⟩ heq
    rcases hab with h | ⟨-, hle⟩
    · exact absurd h (by rw [heq]; exact lt_irrefl _)
    · exact lt_of_le_of_ne hle hneq
  by_cases hdf : df = []
  · subst hdf
    exact ⟨rfl, List.Pairwise.nil, hties⟩
  · refine ⟨?_, ?_, hties⟩
    · rw [get_top_posts, if_neg hdf, List.length_map, topRows_length]
    · rw [get_top_posts, if_neg hdf, List.pairwise_map]
      refine htake.imp ?_
      intro a b hab
      rcases hab with h | ⟨h, -⟩
      · exact le_of_lt h
      · exact le_of_eq h.symm

/-- C4: for every non-empty list of posts, the `(date, platform)` groups of
`compute_daily_metrics` partition the table's rows: the `total_posts` fields
sum to the number of posts. -/
theorem claim_C4_groups_partition (posts : List Post) (h : posts ≠ []) :
    ((compute_daily_metrics (process_posts posts)).map (·.total_posts)).sum
      = posts.length := by
  set df := process_posts posts with hdf
  have hlen : df.length = posts.length := by
    rw [hdf, process_posts, if_neg h, List.length_map]
  have hdfne : df ≠ [] := by
    intro h0
    apply h
    have h1 := congrArg List.length h0
    rw [hlen] at h1
    exact List.length_eq_zero.mp h1
  rw [compute_daily_metrics, if_neg hdfne, List.map_map]
  have hfun : ((fun m : DailyMetrics => m.total_posts) ∘ metricFor df)
      = fun k => (df.filter (fun r => decide (rowKey r = k))).length := rfl
  rw [hfun, ← hlen]
  exact filter_length_partition df (groupKeys df) (groupKeys_nodup df)
    (fun r hr => (mem_groupKeys df (rowKey r)).mpr (List.mem_map_of_mem rowKey hr))

/-- Witness for C4 at a concrete two-post input. -/
theorem claim_C4_witness :
    witnessPosts ≠ [] ∧
    ((compute_daily_metrics (process_posts witnessPosts)).map
        (·.total_posts)).sum = witnessPosts.length :=
  ⟨by decide, claim_C4_groups_partition witnessPosts (by decide)⟩

/-- C5: every daily metric's totals are the sums over its group's rows and its
average is the rounded engagement-per-post quotient (0 for an empty group,
which cannot occur for an emitted group but is guarded); concretely, the
`[5, 50, 500]` same-day Twitter scenario yields a single metric with
`total_engagement = 555` and `avg_engagement_per_post = 185`. -/
theorem claim_C5_group_aggregates :
    (∀ (df : List Row), ∀ m ∈ compute_daily_metrics df,
      m.total_posts = (groupRows df (m.date, m.platform)).length ∧
      m.total_likes = ((groupRows df (m.date, m.platform)).map (·.likes)).sum ∧
      m.total_comments =
        ((groupRows df (m.date, m.platform)).map (·.comments)).sum ∧
      m.total_shares = ((groupRows df (m.date, m.platform)).map (·.shares)).sum ∧
      m.total_engagement =
        ((groupRows df (m.date, m.platform)).map (·.engagement_score)).sum ∧
      m.avg_engagement_per_post =
        (if m.total_posts = 0 then 0
         else round2 ((m.total_engagement : ℚ) / m.total_posts))) ∧
    compute_daily_metrics scenarioDf = [scenarioMetric] ∧
    scenarioMetric.total_engagement = 555 ∧
    scenarioMetric.avg_engagement_per_post = 185 := by
  refine ⟨?_, by with_unfolding_all decide, by with_unfolding_all decide,
    by with_unfolding_all decide⟩
  intro df m hm
  rw [compute_daily_metrics] at hm
  by_cases hdf : df = []
  · rw [if_pos hdf] at hm; cases hm
  · rw [if_neg hdf] at hm
    rcases List.mem_map.mp hm with ⟨k, _, rfl⟩
    have hkey : ((metricFor df k).date, (metricFor df k).platform) = k := rfl
    rw [hkey]
    refine ⟨rfl, rfl, rfl, rfl, rfl, ?_⟩
    show round2 (if 0 < (groupRows df k).length
          then ((((groupRows df k).map (·.engagement_score)).sum : Int) : ℚ)
            / (groupRows df k).length
          else 0)
        = (if (groupRows df k).length = 0 then 0
           else round2 (((((groupRows df k).map (·.engagement_score)).sum : Int) : ℚ)
             / (groupRows df k).length))
    rcases Nat.eq_zero_or_pos (groupRows df k).length with hz | hz
    · rw [if_neg (by omega), if_pos hz, round2_zero]
    · rw [if_pos hz, if_neg (by omega)]

/-- Witness for C5: the universal part of the claim applied to the concrete
scenario metric. -/
theorem claim_C5_witness :
    scenarioMetric.total_posts =
      (groupRows scenarioDf (scenarioMetric.date, scenarioMetric.platform)).length ∧
    scenarioMetric.total_likes =
      ((groupRows scenarioDf (scenarioMetric.date, scenarioMetric.platform)).map
        (·.likes)).sum ∧
    scenarioMetric.total_comments =
      ((groupRows scenarioDf (scenarioMetric.date, scenarioMetric.platform)).map
        (·.comments)).sum ∧
    scenarioMetric.total_shares =
      ((groupRows scenarioDf (scenarioMetric.date, scenarioMetric.platform)).map
        (·.shares)).sum ∧
    scenarioMetric.total_engagement =
      ((groupRows scenarioDf (scenarioMetric.date, scenarioMetric.platform)).map
        (·.engagement_score)).sum ∧
    scenarioMetric.avg_engagement_per_post =
      (if scenarioMetric.total_posts = 0 then 0
       else round2 ((scenarioMetric.total_engagement : ℚ) / scenarioMetric.total_posts)) :=
  claim_C5_group_aggregates.1 scenarioDf scenarioMetric (by with_unfolding_all decide)

theorem per_platform_keys_eq (df : List Row) (n : Nat) (hdf : df ≠ []) :
    (get_top_posts_per_platform df n).map Prod.fst = platformsOf df := by
  rw [get_top_posts_per_platform, if_neg hdf, List.map_map]
  have h : ∀ p ∈ platformsOf df,
      (Prod.fst ∘ fun p =>
        (p, (topRows (df.filter (fun r => decide (r.platform = p))) n).map
          (fun ir => topPostOfRow ir.2))) p = id p := fun p _ => rfl
  rw [List.map_congr_left h, List.map_id]

/-- C7: the per-platform ranking map has as keys exactly the platforms that
occur in the table, and each value is a non-empty list of length
`min 3 (rows of that platform)`. -/
theorem claim_C7_per_platform_ranker (df : List Row) :
    (∀ p : String,
      p ∈ (get_top_posts_per_platform df 3).map Prod.fst ↔
        ∃ r ∈ df, r.platform = p) ∧
    ∀ pr ∈ get_top_posts_per_platform df 3,
      pr.2.length =
        min 3 (df.filter (fun r => decide (r.platform = pr.1))).length ∧
      pr.2 ≠ [] := by
  by_cases hdf : df = []
  · subst hdf
    constructor
    · intro p
      constructor
      · intro h; cases h
      · rintro ⟨r, hr, -⟩; cases hr
    · intro pr hpr; cases hpr
  · constructor
    · intro p
      rw [per_platform_keys_eq df 3 hdf, platformsOf, uniqueList_mem]
      constructor
      · intro h
        rcases List.mem_map.mp h with ⟨r, hr, he⟩
        exact ⟨r, hr, he⟩
      · rintro ⟨r, hr, he⟩
        exact List.mem_map.mpr ⟨r, hr, he⟩
    · intro pr hpr
      rw [get_top_posts_per_platform, if_neg hdf] at hpr
      rcases List.mem_map.mp hpr with ⟨p, hp, rfl⟩
      have hx : ∃ r ∈ df, r.platform = p := by
        rw [platformsOf, uniqueList_mem] at hp
        rcases List.mem_map.mp hp with ⟨r, hr, he⟩
        exact ⟨r, hr, he⟩
      obtain ⟨r, hr, he⟩ := hx
      have hmemf : r ∈ df.filter (fun r => decide (r.platform = p)) :=
        List.mem_filter.mpr ⟨hr, by simp [he]⟩
      have hpos : 0 < (df.filter (fun r => decide (r.platform = p))).length :=
        List.length_pos.mpr (List.ne_nil_of_mem hmemf)
      constructor
      · show ((topRows (df.filter (fun r => decide (r.platform = p))) 3).map
          (fun ir => topPostOfRow ir.2)).length = _
        rw [List.length_map, topRows_length]
      · intro hemp
        have hlen := congrArg List.length hemp
        rw [List.length_map, topRows_length] at hlen
        simp only [List.length_nil] at hlen
        omega

/-- Witness for C7 at a concrete two-platform table. -/
theorem claim_C7_witness :
    ("twitter" ∈ (get_top_posts_per_platform twoPlatformRows 3).map Prod.fst ↔
      ∃ r ∈ twoPlatformRows, r.platform = "twitter") ∧
    (c7pair.2.length =
      min 3 (twoPlatformRows.filter
        (fun r => decide (r.platform = c7pair.1))).length ∧
     c7pair.2 ≠ []) :=
  ⟨(claim_C7_per_platform_ranker twoPlatformRows).1 "twitter",
   (claim_C7_per_platform_ranker twoPlatformRows).2 c7pair (by decide)⟩

theorem sum_map_const_int (l : List Row) (f : Row → Int) (c : Int)
    (h : ∀ r ∈ l, f r = c) : (l.map f).sum = l.length * c := by
  induction l with
  | nil => simp
  | cons a l ih =>
    simp only [List.map_cons, List.sum_cons, List.length_cons]
    rw [h a (List.mem_cons_self a l), ih (fun r hr => h r (List.mem_cons_of_mem a hr))]
    push_cast
    ring

theorem meanEngagement_const (df : List Row) (c : Int) (hne : df ≠ [])
    (hall : ∀ r ∈ df, r.engagement_score = c) :
    meanEngagement df = (c : ℚ) := by
  have hpos : 0 < df.length := List.length_pos.mpr hne
  have hlen : (df.length : ℚ) ≠ 0 := by
    exact_mod_cast Nat.pos_iff_ne_zero.mp hpos
  rw [meanEngagement, meanInt,
    sum_map_const_int df _ c hall, List.length_map]
  push_cast
  field_simp

theorem varEngagement_const (df : List Row) (c : Int) (hne : df ≠ [])
    (hall : ∀ r ∈ df, r.engagement_score = c) :
    varEngagement df = 0 := by
  have hmean := meanEngagement_const df c hne hall
  rw [varEngagement, meanQ]
  have hz : (df.map
      (fun r => ((r.engagement_score : ℚ) - meanEngagement df) ^ 2)).sum = 0 := by
    apply List.sum_eq_zero
    intro x hx
    rcases List.mem_map.mp hx with ⟨r, hr, rfl⟩
    rw [hall r hr, hmean]
    ring
  rw [hz, zero_div]

/-- C3: a non-empty table whose engagement scores are all equal has zero
population variance, so `detect_anomalies` takes the guarded branch and
returns no anomalies for any threshold `≥ 0` (`anomalyIndices` being empty
shows the per-row division by the standard deviation is never reached). -/
theorem claim_C3_zero_variance (df : List Row) (c : Int) (t : ℚ)
    (hne : df ≠ []) (hall : ∀ r ∈ df, r.engagement_score = c) (ht : 0 ≤ t) :
    detect_anomalies df t = [] ∧ anomalyIndices df t = [] := by
  have hvar := varEngagement_const df c hne hall
  have hidx : anomalyIndices df t = [] := by
    simp [anomalyIndices, hne, hvar]
  exact ⟨by rw [detect_anomalies, hidx]; rfl, hidx⟩

/-- Witness for C3 at a concrete constant-score table. -/
theorem claim_C3_witness :
    detect_anomalies constantRows 2 = [] ∧ anomalyIndices constantRows 2 = [] :=
  claim_C3_zero_variance constantRows 7 2 (by decide) (by decide) (by decide)

/-- C10: for a non-empty table with non-zero variance, the anomaly list is the
in-order image of `anomalyIndices`, whose entries are strictly ascending
original row positions, so the output order is deterministic. -/
theorem claim_C10_ascending_positions (df : List Row) (t : ℚ)
    (h1 : df ≠ []) (h2 : varEngagement df ≠ 0) :
    (anomalyIndices df t).Pairwise (· < ·) ∧
    detect_anomalies df t =
      (anomalyIndices df t).map (fun i => anomalyOfRow (df.getD i default)) := by
  refine ⟨?_, rfl⟩
  simp only [anomalyIndices]
  split
  · exact List.Pairwise.nil
  · split
    · exact (List.pairwise_lt_range df.length).filter _
    · exact List.Pairwise.nil

/-- Witness for C10 at the concrete outlier table with threshold 1. -/
theorem claim_C10_witness :
    (anomalyIndices outlierRows 1).Pairwise (· < ·) ∧
    detect_anomalies outlierRows 1 =
      (anomalyIndices outlierRows 1).map
        (fun i => anomalyOfRow (outlierRows.getD i default)) :=
  claim_C10_ascending_positions outlierRows 1 (by decide)
    (by with_unfolding_all decide)

/-- C2 counterexample: on the spec's series `[1, 1, 1, 1, 100]` with threshold
2.0 the detector returns NO anomaly (the claim asserts exactly one): the
z-score of the 100-row is exactly 2, which is not strictly greater than the
threshold. -/
theorem claim_C2_counterexample :
    detect_anomalies anomalyDemoRows 2 = [] ∧ anomalyDemoRows ≠ [] :=
  ⟨by with_unfolding_all decide, by decide⟩

/-- C2 (amended): a row is flagged exactly when its z-score strictly exceeds
the threshold (in the square-root-free form `zExceeds`); on `[1, 1, 1, 1, 100]`
with threshold 2.0 nothing is flagged because the 100-row's z-score is exactly
2, while any threshold strictly below 2 (for example 1.9) flags exactly the
100-row. -/
theorem claim_C2_strict_inequality :
    (∀ (df : List Row) (t : ℚ) (i : Nat),
      i ∈ anomalyIndices df t ↔
        df ≠ [] ∧ 0 < varEngagement df ∧ i < df.length ∧
          zExceeds ((df.getD i default).engagement_score : ℚ)
            (meanEngagement df) (varEngagement df) t) ∧
    detect_anomalies anomalyDemoRows 2 = [] ∧
    detect_anomalies anomalyDemoRows (19/10) =
      [anomalyOfRow (mkRow "p5" "twitter" 100 0)] := by
  refine ⟨?_, by with_unfolding_all decide, by with_unfolding_all decide⟩
  intro df t i
  simp only [anomalyIndices]
  by_cases hdf : df = []
  · simp [hdf]
  · rw [if_neg hdf]
    by_cases hv : 0 < varEngagement df
    · rw [if_pos hv]
      simp [List.mem_filter, List.mem_range, hdf, hv, and_assoc]
    · rw [if_neg hv]
      simp [hdf, hv]

/-- C6 (code bug): for a platform with a single day of history the source's
fallback assigns the scalar series mean and then evaluates `len()` on that
scalar, raising `TypeError`; the broad `except` turns this into an empty
result, so the single-day table yields `[]` instead of the specified
moving averages equal to the day's engagement `E = 10`. -/
theorem claim_C6_scalar_len_failure :
    compute_moving_averages singleDayRows 7 30 = [] ∧
    dailyEngagement singleDayRows "twitter" = [10] :=
  ⟨by with_unfolding_all decide, by with_unfolding_all decide⟩

/-- C9 counterexample: a non-empty, non-degenerate two-day table still yields
an empty moving-average result — the component swallowed an internal failure
instead of propagating an error, so emptiness does not imply the documented
degenerate (empty-input) case. -/
theorem claim_C9_counterexample :
    compute_moving_averages twoDayRows 7 30 = [] ∧ twoDayRows ≠ [] :=
  ⟨by with_unfolding_all decide, by decide⟩

theorem maLoop_eq_none (df : List Row) (w7 w30 : Nat) (ps : List String)
    (p : String) (hp : p ∈ ps)
    (h : (platformDays df p).length < w7 ∨ (platformDays df p).length < w30) :
    maLoop df w7 w30 ps = none := by
  induction ps with
  | nil => cases hp
  | cons q ps ih =>
    simp only [maLoop]
    rcases List.mem_cons.mp hp with rfl | hp'
    · rcases h with h' | h'
      · rw [if_pos h']
      · by_cases h7 : (platformDays df p).length < w7
        · rw [if_pos h7]
        · rw [if_neg h7, if_pos h']
    · by_cases h7 : (platformDays df q).length < w7
      · rw [if_pos h7]
      · by_cases h30 : (platformDays df q).length < w30
        · rw [if_neg h7, if_pos h30]
        · rw [if_neg h7, if_neg h30, ih hp']

/-- C9 (amended): the engine components catch unexpected internal failures and
log-and-return-empty rather than propagating them; concretely, any table in
which some platform has fewer than 30 distinct days makes
`compute_moving_averages` silently return an empty list. -/
theorem claim_C9_swallowed_failure (df : List Row) (p : String)
    (hp : p ∈ platformsOf df) (hd : (platformDays df p).length < 30) :
    compute_moving_averages df 7 30 = [] := by
  rw [compute_moving_averages]
  by_cases hdf : df = []
  · rw [if_pos hdf]
  · rw [if_neg hdf, maLoop_eq_none df 7 30 (platformsOf df) p hp (Or.inr hd)]
    rfl

/-- Witness for C9's amended claim at a concrete three-day table. -/
theorem claim_C9_witness :
    compute_moving_averages threeDayRows 7 30 = [] :=
  claim_C9_swallowed_failure threeDayRows "youtube" (by decide) (by decide)

/-- C8: on the empty post sequence or empty table, every engine operation
returns a well-typed empty result, and the summary keeps its generation-date
stamp with all collections empty. -/
theorem claim_C8_empty_input :
    process_posts [] = [] ∧
    compute_daily_metrics [] = [] ∧
    (∀ n, get_top_posts [] n = []) ∧
    (∀ n, get_top_posts_per_platform [] n = []) ∧
    (∀ w7 w30, compute_moving_averages [] w7 w30 = []) ∧
    (∀ t, detect_anomalies [] t = []) ∧
    get_platform_comparison [] = [] ∧
    (∀ today, generate_analytics_summary [] today =
      { date := today, daily_metrics := [], top_posts_overall := [],
        top_posts_per_platform := [], moving_averages := [] }) :=
  ⟨rfl, rfl, fun _ => rfl, fun _ => rfl, fun _ _ => rfl, fun _ => rfl, rfl,
    fun _ => rfl⟩
